import Mathlib

/-!
Verification of the lead scoring and segmentation pipeline
(feature_engineering.py, export_leads.py, config.py) against its
natural-language specification.  The Python data-frame pipeline is
shallowly embedded: rows become records, data-frame columns become
record fields, `pd.cut` becomes an `Option`-valued binning function
(`none` models `NaN`), and the per-row loops become `List.map`.
-/

namespace Leads

/-! ## Data model

`RawRecord` mirrors one row of the collected CSV
(`data_collection.py` builds rows with fields `place_id`, `name`,
`phone`, `rating`, `review_count`, `price_level`, `types`, `website`,
`source_location`, `fetched_at`, ...).  Optional fields model missing
(NaN) cells.  Ratings are rationals (the source stores floats such as
4.5); review counts and price levels are integers after coercion. -/

structure RawRecord where
  place_id : Option String
  name : String
  phone : Option String
  rating : Option ℚ
  review_count : Option Int
  price_level : Option Int
  types : String
  website : Option String
  source_location : Option String
  fetched_at : Int
deriving Repr, DecidableEq

/-- Row after `clean_data`: numeric fields defaulted, location split
into `city`/`state`.  `city`/`state` stay optional because the pandas
string split leaves `NaN` where `source_location` is missing (or where
a row has no comma while the frame-wide split produced two columns). -/
structure CleanedRecord where
  place_id : Option String
  name : String
  phone : String
  rating : ℚ
  review_count : Int
  price_level : Int
  types : String
  website : String
  city : Option String
  state : Option String
  fetched_at : Int
deriving Repr, DecidableEq

/-! ## Cleaner (`clean_data`) -/

/-- Whether the split of this row's `source_location` on `,` has a
second part.  `df['source_location'].str.split(',', expand=True)`
produces a second column iff some row satisfies this. -/
def locationHasComma (r : RawRecord) : Bool :=
  match r.source_location with
  | some s => 1 < (s.splitOn ",").length
  | none => false

/-- Per-row cleaning.  `hasComma` records whether the frame-wide split
produced a second column (a cross-row dependency of the pandas code):
if it did not, every row gets `state = ""`; if it did, a row without
its own second part gets `NaN` (`none`). -/
def cleanRecord (hasComma : Bool) (r : RawRecord) : CleanedRecord :=
  { place_id := r.place_id
    name := r.name
    phone := r.phone.getD ""
    rating := r.rating.getD 0
    review_count := r.review_count.getD 0
    price_level := r.price_level.getD 0
    types := r.types
    website := r.website.getD ""
    city := r.source_location.map (fun s => ((s.splitOn ",").headD "").trim)
    state :=
      if hasComma then
        r.source_location.bind (fun s => ((s.splitOn ",")[1]?).map String.trim)
      else some ""
    fetched_at := r.fetched_at }

/-- `clean_data(df)`: fills missing numerics with 0, splits
`source_location` into `city`/`state`, fills missing phone/website
with the empty string.  It contains no row-dropping step. -/
def clean_data (records : List RawRecord) : List CleanedRecord :=
  records.map (cleanRecord (records.any locationHasComma))

/-! ## FeatureEngineer (`engineer_features`) -/

/-- Whether `pat` begins `s` (character lists). -/
def charsLead : List Char → List Char → Bool
  | [], _ => true
  | _ :: _, [] => false
  | p :: ps, c :: cs => p == c && charsLead ps cs

/-- Whether `pat` occurs contiguously somewhere in `s`; the embedding
of Python's substring test `pat in s`. -/
def charsSub : List Char → List Char → Bool
  | pat, [] => charsLead pat []
  | pat, c :: cs => charsLead pat (c :: cs) || charsSub pat cs

/-- `pat in s` on strings. -/
def strContains (s pat : String) : Bool :=
  charsSub pat.toList s.toList

/-- `str.lower()`, as a per-character map. -/
def strLower (s : String) : String :=
  ⟨s.toList.map Char.toLower⟩

/-- `any(term in s for term in kws)` after lowercasing `s`. -/
def matchesAny (s : String) (kws : List String) : Bool :=
  kws.any (fun t => strContains (strLower s) t)

/-- `HIGH_DEMAND_CATEGORIES` from config.py. -/
def HIGH_DEMAND_CATEGORIES : List String :=
  ["pizza", "chinese", "mexican", "sushi", "thai", "indian",
   "italian", "japanese", "korean", "vietnamese",
   "grocery", "supermarket", "convenience"]

/-- The hard-coded urban city list in `engineer_features`. -/
def urbanCities : List String :=
  ["San Francisco", "New York", "Chicago", "Los Angeles", "Seattle"]

/-- Labels of `pd.cut(review_count, bins=[0,50,200,500,inf])`. -/
inductive ReviewVolume where
  | veryLow | low | medium | high
deriving Repr, DecidableEq

/-- `pd.cut(df['review_count'], bins=[0, 50, 200, 500, np.inf],
labels=['Very Low','Low','Medium','High'])`.  `pd.cut` defaults to
right-closed bins that exclude the lowest edge, so the intervals are
(0,50], (50,200], (200,500], (500,∞); a count of 0 (or below) falls in
no bin and yields `NaN`, modelled as `none`. -/
def reviewVolumeBucket (c : Int) : Option ReviewVolume :=
  if 0 < c ∧ c ≤ 50 then some .veryLow
  else if 50 < c ∧ c ≤ 200 then some .low
  else if 200 < c ∧ c ≤ 500 then some .medium
  else if 500 < c then some .high
  else none

/-- The keyword lists of `classify_vertical`, in evaluation order. -/
def restaurantKeywords : List String :=
  ["restaurant", "food", "meal_takeaway", "meal_delivery", "cafe"]

def groceryKeywords : List String :=
  ["grocery", "supermarket", "store"]

def retailKeywords : List String :=
  ["shopping", "store", "clothing_store", "convenience_store"]

/-- `classify_vertical(types_str)`: first matching keyword list wins,
default `'other'`. -/
def classify_vertical (types_str : String) : String :=
  if matchesAny types_str restaurantKeywords then "restaurants"
  else if matchesAny types_str groceryKeywords then "grocery"
  else if matchesAny types_str retailKeywords then "retail"
  else "other"

/-- A cleaned row together with the engineered feature columns. -/
structure FeatureRow where
  base : CleanedRecord
  high_demand_category : Bool
  review_volume : Option ReviewVolume
  is_affordable : Bool
  high_rating : Bool
  urban_location : Bool
  on_ubereats : Bool
  on_grubhub : Bool
  vertical : String
deriving Repr, DecidableEq

/-- Feature computation for one row.  The competitor-platform flags
come from `np.random.choice` in the source; here they are supplied by
the `comp` argument (first component `on_ubereats`, second
`on_grubhub`), so the embedding is a function of the drawn values. -/
def engineerRecord (comp : Bool × Bool) (r : CleanedRecord) : FeatureRow :=
  { base := r
    high_demand_category := matchesAny r.types HIGH_DEMAND_CATEGORIES
    review_volume := reviewVolumeBucket r.review_count
    is_affordable := [(0 : Int), 1, 2].contains r.price_level
    high_rating := decide ((4 : ℚ) ≤ r.rating)
    urban_location :=
      match r.city with
      | some c => urbanCities.contains c
      | none => false
    on_ubereats := comp.1
    on_grubhub := comp.2
    vertical := classify_vertical r.types }

/-- `engineer_features(df)`, with the random competitor draws
abstracted as an index-dependent oracle `comp`. -/
def engineer_features (comp : Nat → Bool × Bool)
    (records : List CleanedRecord) : List FeatureRow :=
  records.enum.map (fun p => engineerRecord (comp p.1) p.2)

/-! ## Scorer (`calculate_lead_score`) -/

/-- `SCORING_WEIGHTS` as a typed record (keys of the config dict). -/
structure Weights where
  competitor_platform : Int
  review_count_high : Int
  review_count_medium : Int
  review_count_low : Int
  high_demand_category : Int
  urban_location : Int
  high_rating : Int
  affordable_price : Int
deriving Repr, DecidableEq

/-- The shipped `SCORING_WEIGHTS` values from config.py. -/
def SCORING_WEIGHTS : Weights :=
  { competitor_platform := 25
    review_count_high := 20
    review_count_medium := 15
    review_count_low := 10
    high_demand_category := 20
    urban_location := 15
    high_rating := 10
    affordable_price := 10 }

/-- The tiered Review Volume points: the `if/elif/else` chain on
`review_count` in `calculate_lead_score` (strict `>` comparisons,
flat 5 in the final `else`). -/
def reviewPoints (w : Weights) (c : Int) : Int :=
  if 500 < c then w.review_count_high
  else if 200 < c then w.review_count_medium
  else if 50 < c then w.review_count_low
  else 5

/-- The per-row scoring loop body: starting from `score = 0` and an
empty breakdown dict, each factor block appends its entry and adds its
points when its condition holds; the Review Volume block always
records an entry and always adds its points. -/
def scoreRow (w : Weights) (row : FeatureRow) : Int × List (String × Int) :=
  let acc : Int × List (String × Int) := (0, [])
  let acc :=
    if row.on_ubereats || row.on_grubhub then
      (acc.1 + w.competitor_platform,
       acc.2 ++ [("Competitor Platform", w.competitor_platform)])
    else acc
  let points := reviewPoints w row.base.review_count
  let acc := (acc.1 + points, acc.2 ++ [("Review Volume", points)])
  let acc :=
    if row.high_demand_category then
      (acc.1 + w.high_demand_category,
       acc.2 ++ [("High Demand Category", w.high_demand_category)])
    else acc
  let acc :=
    if row.urban_location then
      (acc.1 + w.urban_location, acc.2 ++ [("Urban Location", w.urban_location)])
    else acc
  let acc :=
    if row.high_rating then
      (acc.1 + w.high_rating, acc.2 ++ [("High Rating", w.high_rating)])
    else acc
  let acc :=
    if row.is_affordable then
      (acc.1 + w.affordable_price, acc.2 ++ [("Affordable Price", w.affordable_price)])
    else acc
  acc

/-- Priority tiers. -/
inductive PriorityTier where
  | low | medium | high | critical
deriving Repr, DecidableEq

/-- `pd.cut(df['lead_score'], bins=[0, 50, 70, 85, 100],
labels=['Low','Medium','High','Critical'])`: right-closed bins
(0,50], (50,70], (70,85], (85,100]; a score outside every bin —
including exactly 0 — yields `NaN`, modelled as `none`. -/
def priorityOfScore (s : Int) : Option PriorityTier :=
  if 0 < s ∧ s ≤ 50 then some .low
  else if 50 < s ∧ s ≤ 70 then some .medium
  else if 70 < s ∧ s ≤ 85 then some .high
  else if 85 < s ∧ s ≤ 100 then some .critical
  else none

/-- `str(priority)` on the pandas categorical cell (`NaN` prints as
`"nan"`). -/
def priorityLabel : Option PriorityTier → String
  | some .low => "Low"
  | some .medium => "Medium"
  | some .high => "High"
  | some .critical => "Critical"
  | none => "nan"

/-- The `sla_days` dict inside `get_contact_date`. -/
def slaDaysTable : List (String × Int) :=
  [("Critical", 3), ("High", 7), ("Medium", 14), ("Low", 30)]

/-- `get_contact_date(priority)`: `datetime.now() + timedelta(days=
sla_days.get(str(priority), 30))`.  Dates are modelled as day numbers;
`now` is the wall-clock day at scoring time (the source uses the
current time, not any per-record timestamp). -/
def get_contact_date (now : Int) (p : Option PriorityTier) : Int :=
  now + ((slaDaysTable.lookup (priorityLabel p)).getD 30)

/-- A fully scored row. -/
structure ScoredRow where
  base : FeatureRow
  lead_score : Int
  score_breakdown : List (String × Int)
  priority : Option PriorityTier
  contact_by_date : Int
deriving Repr, DecidableEq

/-- Score one row and attach priority and contact date. -/
def scoreRecord (w : Weights) (now : Int) (row : FeatureRow) : ScoredRow :=
  let sb := scoreRow w row
  { base := row
    lead_score := sb.1
    score_breakdown := sb.2
    priority := priorityOfScore sb.1
    contact_by_date := get_contact_date now (priorityOfScore sb.1) }

/-- `calculate_lead_score(df)` over the whole collection. -/
def calculate_lead_score (w : Weights) (now : Int)
    (rows : List FeatureRow) : List ScoredRow :=
  rows.map (scoreRecord w now)

/-! ## Segmenter (`apply_vertical_filters` in export_leads.py)

The export step reloads the scored CSV, so its rows carry only the
columns it reads: `vertical` and `lead_score` (plus identifying
fields).  `SegLead` models such a row. -/

structure SegLead where
  name : String
  vertical : String
  lead_score : Int
deriving Repr, DecidableEq

/-- One `VERTICAL_RULES` entry from config.py. -/
structure VRule where
  min_score : Int
  target_count : Nat
  sla_days : Int
  priority_categories : List String
deriving Repr, DecidableEq

/-- The shipped `VERTICAL_RULES` (dict in insertion order). -/
def VERTICAL_RULES : List (String × VRule) :=
  [("restaurants",
    { min_score := 50, target_count := 200, sla_days := 7
      priority_categories := ["pizza", "chinese", "mexican"] }),
   ("grocery",
    { min_score := 60, target_count := 100, sla_days := 14
      priority_categories := ["grocery", "supermarket"] }),
   ("retail",
    { min_score := 55, target_count := 150, sla_days := 10
      priority_categories := ["retail", "shopping", "convenience"] })]

/-- `sort_values('lead_score', ascending=False)` order. -/
def scoreDesc (a b : SegLead) : Prop :=
  b.lead_score ≤ a.lead_score

instance : DecidableRel scoreDesc :=
  fun a b => inferInstanceAs (Decidable (b.lead_score ≤ a.lead_score))

instance : IsTotal SegLead scoreDesc :=
  ⟨fun a b => Int.le_total b.lead_score a.lead_score⟩

instance : IsTrans SegLead scoreDesc :=
  ⟨fun _ _ _ hab hbc => le_trans hbc hab⟩

/-- The list kept for one vertical once its partition is known to be
non-empty: filter by `min_score`, sort descending by score, truncate
to `target_count`.  The source's `sort_values` (default quicksort) is
deterministic but not stable on runs of equal scores; `insertionSort`
is a deterministic stand-in for it, so statements exported about the
program from this definition must not depend on the order of leads
within a tie run. -/
def retained (leads : List SegLead) (v : String) (r : VRule) : List SegLead :=
  (((leads.filter (fun x => x.vertical == v)).filter
      (fun x => decide (r.min_score ≤ x.lead_score))).insertionSort scoreDesc).take
    r.target_count

/-- The loop body of `apply_vertical_filters` for one rules entry:
partition by vertical, `continue` (yield nothing) when the partition
is empty — this emptiness test runs before the `min_score` filter —
otherwise keep the retained list. -/
def processVertical (leads : List SegLead) (vr : String × VRule) :
    Option (String × List SegLead) :=
  if (leads.filter (fun x => x.vertical == vr.1)).isEmpty then none
  else some (vr.1, retained leads vr.1 vr.2)

/-- `apply_vertical_filters(df)`: the output dict keyed by vertical,
in `VERTICAL_RULES` iteration order. -/
def apply_vertical_filters (leads : List SegLead)
    (rules : List (String × VRule)) : List (String × List SegLead) :=
  rules.filterMap (processVertical leads)

/-- Concatenating every per-vertical list of the segmenter's output
back into one collection. -/
def flattenGroups (gs : List (String × List SegLead)) : List SegLead :=
  (gs.map Prod.snd).flatten

/-! ## Pipeline (`main` in feature_engineering.py) -/

inductive PipelineError where
  | inputError : String → PipelineError
deriving Repr, DecidableEq

/-- `load_latest_raw_data`: raise when the raw-data directory holds no
`businesses_*.csv` file, otherwise read the lexicographically greatest
file name (`max(files)`). -/
def load_latest_raw_data (files : List (String × List RawRecord)) :
    Except PipelineError (List RawRecord) :=
  match files with
  | [] => .error (.inputError "No raw data files found")
  | f :: fs =>
    .ok (fs.foldl (fun acc g => if acc.1 < g.1 then g else acc) f).2

/-- `main()`: load, then clean → engineer → score → validate → save in
order; any raised error aborts before the remaining stages run.  The
returned list names the stages that executed (the validator only logs
and the saver only writes the finished frame, so data-wise the result
is the scored collection). -/
def runPipeline (w : Weights) (comp : Nat → Bool × Bool) (now : Int)
    (files : List (String × List RawRecord)) :
    List String × Except PipelineError (List ScoredRow) :=
  match load_latest_raw_data files with
  | .error e => ([], .error e)
  | .ok raw =>
    let cleaned := clean_data raw
    let featured := engineer_features comp cleaned
    let scored := calculate_lead_score w now featured
    (["clean_data", "engineer_features", "calculate_lead_score",
      "validate_scoring_model", "save_processed_data"], .ok scored)

/-! ## Concrete sample data (used by witnesses and counterexamples) -/

/-- The breakdown keys the scorer can emit, in evaluation order. -/
def factorNames : List String :=
  ["Competitor Platform", "Review Volume", "High Demand Category",
   "Urban Location", "High Rating", "Affordable Price"]

/-- The §8 scenario record: review_count 600, rating 4.5, price level
1, category `pizza_restaurant`, San Francisco, collected at day 0. -/
def demoCleaned : CleanedRecord :=
  { place_id := some "demo-1"
    name := "Pizza Place"
    phone := "555-0100"
    rating := 4.5
    review_count := 600
    price_level := 1
    types := "pizza_restaurant"
    website := "example.com"
    city := some "San Francisco"
    state := some "CA"
    fetched_at := 0 }

/-- Features of the scenario record, with competitor presence drawn as
(on_ubereats, on_grubhub) = (true, false): review count 600 is in the
High bucket, price level 1 is affordable, rating 4.5 is high, San
Francisco is urban, and `pizza_restaurant` is high-demand and
classifies as restaurants. -/
def demoFeature : FeatureRow :=
  { base := demoCleaned
    high_demand_category := true
    review_volume := some .high
    is_affordable := true
    high_rating := true
    urban_location := true
    on_ubereats := true
    on_grubhub := false
    vertical := "restaurants" }

/-- A misconfigured weight set whose values sum above 100. -/
def bigWeights : Weights :=
  { competitor_platform := 200
    review_count_high := 20
    review_count_medium := 15
    review_count_low := 10
    high_demand_category := 20
    urban_location := 15
    high_rating := 10
    affordable_price := 10 }

/-- A raw row with no identifier and no location. -/
def rawNoId : RawRecord :=
  { place_id := none
    name := "Anonymous"
    phone := none
    rating := none
    review_count := none
    price_level := none
    types := ""
    website := none
    source_location := none
    fetched_at := 0 }

/-- A restaurant lead passing the restaurants `min_score` of 50. -/
def demoSegLead : SegLead :=
  { name := "r1", vertical := "restaurants", lead_score := 60 }

/-- A restaurant lead below the restaurants `min_score` of 50. -/
def lowSegLead : SegLead :=
  { name := "r2", vertical := "restaurants", lead_score := 40 }

/-! ## Theorems -/

/-- C9: with an empty input collection, the pipeline fails with the
input error before any stage (clean, engineer, score, validate, save)
executes — the executed-stage list is empty and no output is
produced. -/
theorem c9_empty_input_aborts (w : Weights) (comp : Nat → Bool × Bool) (now : Int) :
    runPipeline w comp now [] =
      ([], .error (.inputError "No raw data files found")) := rfl

/-- C2 counterexample: the claim says a score of exactly 0 is treated
as Low, but `pd.cut` with bins `[0,50,70,85,100]` excludes the lowest
edge, so a score of 0 gets no priority at all. -/
theorem c2_zero_score_counterexample :
    priorityOfScore 0 = none ∧ priorityOfScore 0 ≠ some PriorityTier.low := by
  decide

/-- C2 amended: priority is a pure function of the score with
right-closed bins Low (0,50], Medium (50,70], High (70,85], Critical
(85,100]; a score of exactly 0 (or any score outside (0,100]) falls in
no bin and yields a null priority instead of Low; score 50 maps to Low
and 51 to Medium. -/
theorem c2_priority_bins (s : Int) :
    (priorityOfScore s = some PriorityTier.low ↔ 0 < s ∧ s ≤ 50)
    ∧ (priorityOfScore s = some PriorityTier.medium ↔ 50 < s ∧ s ≤ 70)
    ∧ (priorityOfScore s = some PriorityTier.high ↔ 70 < s ∧ s ≤ 85)
    ∧ (priorityOfScore s = some PriorityTier.critical ↔ 85 < s ∧ s ≤ 100)
    ∧ (priorityOfScore s = none ↔ s ≤ 0 ∨ 100 < s)
    ∧ priorityOfScore 50 = some PriorityTier.low
    ∧ priorityOfScore 51 = some PriorityTier.medium := by
  refine ⟨?_, ?_, ?_, ?_, ?_, by decide, by decide⟩ <;>
    · unfold priorityOfScore
      split_ifs <;> simp_all <;> omega

/-- C3 counterexample: the claim says boundary values belong to the
higher bucket, but `pd.cut` uses right-closed bins, so a review count
of exactly 50 lands in Very Low, not Low. -/
theorem c3_boundary_counterexample :
    reviewVolumeBucket 50 = some ReviewVolume.veryLow
    ∧ reviewVolumeBucket 50 ≠ some ReviewVolume.low := by
  decide

/-- C3 amended: the buckets are right-closed intervals VeryLow (0,50],
Low (50,200], Medium (200,500], High (500,∞): each boundary value (50,
200, 500) belongs to the lower bucket, and a count of 0 falls in no
bucket; the scorer's tier selection likewise uses strict comparisons,
so at the shipped weights counts 50/200/500 earn the lower tier's
points (5/10/15). -/
theorem c3_review_buckets (c : Int) :
    (reviewVolumeBucket c = some ReviewVolume.veryLow ↔ 0 < c ∧ c ≤ 50)
    ∧ (reviewVolumeBucket c = some ReviewVolume.low ↔ 50 < c ∧ c ≤ 200)
    ∧ (reviewVolumeBucket c = some ReviewVolume.medium ↔ 200 < c ∧ c ≤ 500)
    ∧ (reviewVolumeBucket c = some ReviewVolume.high ↔ 500 < c)
    ∧ (reviewVolumeBucket c = none ↔ c ≤ 0)
    ∧ reviewVolumeBucket 0 = none
    ∧ reviewPoints SCORING_WEIGHTS 50 = 5
    ∧ reviewPoints SCORING_WEIGHTS 200 = 10
    ∧ reviewPoints SCORING_WEIGHTS 500 = 15 := by
  refine ⟨?_, ?_, ?_, ?_, ?_, by decide, by decide, by decide, by decide⟩ <;>
    · unfold reviewVolumeBucket
      split_ifs <;> simp_all <;> omega

/-- C4 counterexample: the §8 scenario record is collected at day 0
and scored at day 10 with Critical priority; its contact date is day
13 (scoring time + 3), not day 3 (collection timestamp + 3) as the
claim requires. -/
theorem c4_contact_date_counterexample :
    (scoreRecord SCORING_WEIGHTS 10 demoFeature).priority
        = some PriorityTier.critical
    ∧ (scoreRecord SCORING_WEIGHTS 10 demoFeature).contact_by_date = 13
    ∧ demoFeature.base.fetched_at + 3 = 3
    ∧ (13 : Int) ≠ 3 := by
  decide

/-- C4 amended: `contact_by` equals the wall-clock date at scoring
time (not the record's collection timestamp) plus an SLA offset
determined solely by priority — 3 days for Critical, 7 for High, 14
for Medium, 30 for Low, and the 30-day default for a row whose score
fell outside every priority bin. -/
theorem c4_contact_date_rule (now : Int) :
    get_contact_date now (some PriorityTier.critical) = now + 3
    ∧ get_contact_date now (some PriorityTier.high) = now + 7
    ∧ get_contact_date now (some PriorityTier.medium) = now + 14
    ∧ get_contact_date now (some PriorityTier.low) = now + 30
    ∧ get_contact_date now none = now + 30
    ∧ (∀ (w : Weights) (row : FeatureRow),
        (scoreRecord w now row).contact_by_date
          = get_contact_date now (priorityOfScore (scoreRow w row).1)) := by
  exact ⟨rfl, rfl, rfl, rfl, rfl, fun w row => rfl⟩

/-- C8 counterexample: a record lacking any usable identifier (and any
location) is not dropped — `clean_data` has no dropping step — and its
cleaned `city` is null, contradicting both the drop rule and the
non-null-city guarantee of the claim. -/
theorem c8_no_drop_counterexample :
    (clean_data [rawNoId]).length = 1
    ∧ (1 : Nat) ≠ 0
    ∧ (clean_data [rawNoId]).map (fun c => c.city) = [none] := by
  decide

/-- C8 amended: `clean` drops nothing — it returns exactly
`len(records)` records, keeping even records without a usable
identifier; every cleaned record has non-null rating (missing→0.0),
review_count (missing→0), price_level (missing→0), phone and website
(missing→empty string), and identifiers are carried through unchanged;
`city`/`region` may be null when `source_location` is missing. -/
theorem c8_clean_preserves (records : List RawRecord) :
    (clean_data records).length = records.length
    ∧ (clean_data records).map (fun c => c.place_id)
        = records.map (fun r => r.place_id)
    ∧ (clean_data records).map (fun c => c.rating)
        = records.map (fun r => r.rating.getD 0)
    ∧ (clean_data records).map (fun c => c.review_count)
        = records.map (fun r => r.review_count.getD 0)
    ∧ (clean_data records).map (fun c => c.price_level)
        = records.map (fun r => r.price_level.getD 0)
    ∧ (clean_data records).map (fun c => c.phone)
        = records.map (fun r => r.phone.getD "")
    ∧ (clean_data records).map (fun c => c.website)
        = records.map (fun r => r.website.getD "") := by
  unfold clean_data
  refine ⟨by simp, ?_, ?_, ?_, ?_, ?_, ?_⟩ <;>
    simp [List.map_map, Function.comp, cleanRecord]

/-- Closed form of the scoring loop body: the accumulated score is the
sum of the per-factor contributions and the breakdown is the
concatenation of the per-factor entries, in evaluation order. -/
theorem scoreRow_closed (w : Weights) (row : FeatureRow) :
    scoreRow w row =
      ((if row.on_ubereats || row.on_grubhub then w.competitor_platform else 0)
          + reviewPoints w row.base.review_count
          + (if row.high_demand_category then w.high_demand_category else 0)
          + (if row.urban_location then w.urban_location else 0)
          + (if row.high_rating then w.high_rating else 0)
          + (if row.is_affordable then w.affordable_price else 0),
        (if row.on_ubereats || row.on_grubhub then
            [("Competitor Platform", w.competitor_platform)] else [])
          ++ [("Review Volume", reviewPoints w row.base.review_count)]
          ++ (if row.high_demand_category then
                [("High Demand Category", w.high_demand_category)] else [])
          ++ (if row.urban_location then
                [("Urban Location", w.urban_location)] else [])
          ++ (if row.high_rating then [("High Rating", w.high_rating)] else [])
          ++ (if row.is_affordable then
                [("Affordable Price", w.affordable_price)] else [])) := by
  unfold scoreRow
  cases h1 : (row.on_ubereats || row.on_grubhub) <;>
  cases h2 : row.high_demand_category <;>
  cases h3 : row.urban_location <;>
  cases h4 : row.high_rating <;>
  cases h5 : row.is_affordable <;>
  simp [h1, h2, h3, h4, h5]

/-- C1: for every record and every weight configuration, the computed
score equals the sum of the breakdown values; the breakdown has an
entry for exactly the factors whose condition held, with Review Volume
always present carrying the matching tier weight or the flat 5; and no
clamping is applied — a misconfigured weight set produces a score
above 100 as-is. -/
theorem c1_score_eq_breakdown_sum (w : Weights) (row : FeatureRow) :
    (scoreRow w row).1 = ((scoreRow w row).2.map Prod.snd).sum
    ∧ ("Competitor Platform" ∈ (scoreRow w row).2.map Prod.fst
        ↔ (row.on_ubereats || row.on_grubhub) = true)
    ∧ ("Review Volume", reviewPoints w row.base.review_count) ∈ (scoreRow w row).2
    ∧ ("High Demand Category" ∈ (scoreRow w row).2.map Prod.fst
        ↔ row.high_demand_category = true)
    ∧ ("Urban Location" ∈ (scoreRow w row).2.map Prod.fst
        ↔ row.urban_location = true)
    ∧ ("High Rating" ∈ (scoreRow w row).2.map Prod.fst
        ↔ row.high_rating = true)
    ∧ ("Affordable Price" ∈ (scoreRow w row).2.map Prod.fst
        ↔ row.is_affordable = true)
    ∧ ((scoreRow w row).2.map Prod.fst).all (fun k => factorNames.contains k) = true
    ∧ (∃ (wBad : Weights) (rowAny : FeatureRow), 100 < (scoreRow wBad rowAny).1) := by
  rw [scoreRow_closed]
  refine ⟨?_, ?_, ?_, ?_, ?_, ?_, ?_, ?_, ⟨bigWeights, demoFeature, by decide⟩⟩ <;>
  · cases h1 : (row.on_ubereats || row.on_grubhub) <;>
    cases h2 : row.high_demand_category <;>
    cases h3 : row.urban_location <;>
    cases h4 : row.high_rating <;>
    cases h5 : row.is_affordable <;>
    simp [h1, h2, h3, h4, h5, factorNames] <;> omega

/-- C10: at the shipped weights the Review Volume factor contributes
at least 5 points to every record, so every computed score lies in
[5, 100] — a score of 0 never occurs. -/
theorem c10_score_bounds (row : FeatureRow) :
    5 ≤ (scoreRow SCORING_WEIGHTS row).1
    ∧ (scoreRow SCORING_WEIGHTS row).1 ≤ 100 := by
  have hrp : 5 ≤ reviewPoints SCORING_WEIGHTS row.base.review_count
      ∧ reviewPoints SCORING_WEIGHTS row.base.review_count ≤ 20 := by
    unfold reviewPoints
    simp only [SCORING_WEIGHTS]
    split_ifs <;> norm_num
  rw [scoreRow_closed]
  obtain ⟨h5, h20⟩ := hrp
  generalize hg : reviewPoints SCORING_WEIGHTS row.base.review_count = rp at h5 h20 ⊢
  simp only [SCORING_WEIGHTS]
  split_ifs <;> constructor <;> omega

/-- C5: vertical classification is a total function of the category
tags: every tag string maps to exactly one of the four verticals by
first-match-wins over the ordered keyword rules (restaurants, then
grocery, then retail), with `other` when no rule matches; evaluation
order is preserved for overlapping keywords — a `store` tag (and even
`clothing_store`, which the retail list also mentions) classifies as
grocery because the grocery rule is checked first. -/
theorem c5_classify_vertical (s : String) :
    (classify_vertical s = "restaurants" ∨ classify_vertical s = "grocery"
      ∨ classify_vertical s = "retail" ∨ classify_vertical s = "other")
    ∧ (classify_vertical s = "restaurants"
        ↔ matchesAny s restaurantKeywords = true)
    ∧ (classify_vertical s = "grocery"
        ↔ matchesAny s restaurantKeywords = false
          ∧ matchesAny s groceryKeywords = true)
    ∧ (classify_vertical s = "retail"
        ↔ matchesAny s restaurantKeywords = false
          ∧ matchesAny s groceryKeywords = false
          ∧ matchesAny s retailKeywords = true)
    ∧ (classify_vertical s = "other"
        ↔ matchesAny s restaurantKeywords = false
          ∧ matchesAny s groceryKeywords = false
          ∧ matchesAny s retailKeywords = false)
    ∧ classify_vertical "store" = "grocery"
    ∧ classify_vertical "clothing_store" = "grocery" := by
  refine ⟨?_, ?_, ?_, ?_, ?_, by decide, by decide⟩ <;>
  · unfold classify_vertical
    cases hr : matchesAny s restaurantKeywords <;>
    cases hg : matchesAny s groceryKeywords <;>
    cases ht : matchesAny s retailKeywords <;>
    simp [hr, hg, ht]

/-! ### Segmenter lemmas -/

/-- Every element of a sorted-then-truncated list came from the
original list. -/
theorem mem_take_sort {x : SegLead} {l : List SegLead} {n : Nat}
    (hx : x ∈ (l.insertionSort scoreDesc).take n) : x ∈ l :=
  (List.perm_insertionSort scoreDesc l).subset (List.take_subset n _ hx)

/-- A sorted-then-truncated list is sorted. -/
theorem take_sort_sorted (l : List SegLead) (n : Nat) :
    ((l.insertionSort scoreDesc).take n).Sorted scoreDesc :=
  List.Pairwise.sublist (List.take_sublist n _) (List.sorted_insertionSort scoreDesc l)

/-- The retained list never exceeds the vertical's target count. -/
theorem retained_length (L : List SegLead) (v : String) (r : VRule) :
    (retained L v r).length ≤ r.target_count := by
  unfold retained
  rw [List.length_take]
  exact min_le_left _ _

/-- The retained list is sorted descending by score. -/
theorem retained_sorted (L : List SegLead) (v : String) (r : VRule) :
    (retained L v r).Sorted scoreDesc :=
  take_sort_sorted _ _

/-- Every retained lead meets the vertical's minimum score. -/
theorem retained_min_score {L : List SegLead} {v : String} {r : VRule} :
    ∀ x ∈ retained L v r, r.min_score ≤ x.lead_score := by
  intro x hx
  unfold retained at hx
  have := (List.mem_filter.mp (mem_take_sort hx)).2
  simpa using this

/-- Every retained lead belongs to the vertical it was filed under. -/
theorem retained_vertical {L : List SegLead} {v : String} {r : VRule} :
    ∀ x ∈ retained L v r, x.vertical = v := by
  intro x hx
  unfold retained at hx
  have := (List.mem_filter.mp (List.mem_filter.mp (mem_take_sort hx)).1).2
  simpa using this

/-- Inversion of one segmenter loop iteration. -/
theorem processVertical_eq_some {L : List SegLead} {vr : String × VRule}
    {v : String} {g : List SegLead}
    (h : processVertical L vr = some (v, g)) :
    vr.1 = v ∧ (L.filter (fun x => x.vertical == v)).isEmpty = false
      ∧ g = retained L v vr.2 := by
  unfold processVertical at h
  by_cases hm : (L.filter (fun x => x.vertical == vr.1)).isEmpty
  · rw [if_pos hm] at h
    cases h
  · rw [if_neg hm] at h
    injection h with h'
    rw [Prod.mk.injEq] at h'
    obtain ⟨h1, h2⟩ := h'
    subst h1
    exact ⟨rfl, by simpa using hm, h2.symm⟩

/-- Inversion of segmenter output membership. -/
theorem mem_segment_spec {L : List SegLead} {R : List (String × VRule)}
    {v : String} {g : List SegLead}
    (h : (v, g) ∈ apply_vertical_filters L R) :
    ∃ r : VRule, (v, r) ∈ R
      ∧ (L.filter (fun x => x.vertical == v)).isEmpty = false
      ∧ g = retained L v r := by
  unfold apply_vertical_filters at h
  rw [List.mem_filterMap] at h
  obtain ⟨vr, hmem, hpr⟩ := h
  obtain ⟨a, b⟩ := vr
  obtain ⟨h1, h2, h3⟩ := processVertical_eq_some hpr
  dsimp only at h1
  subst h1
  exact ⟨b, hmem, h2, h3⟩

/-- C6: every vertical present in the segmenter's output respects its
rule — at most `target_count` leads, every retained lead scoring at
least `min_score`, sorted descending by score — and a vertical whose
partition is empty is omitted from the output rather than an error. -/
theorem c6_segment_rules :
    (∀ (L : List SegLead) (R : List (String × VRule)) (v : String)
        (g : List SegLead),
        (v, g) ∈ apply_vertical_filters L R →
        ∃ r : VRule, (v, r) ∈ R ∧ g.length ≤ r.target_count
          ∧ (∀ x ∈ g, r.min_score ≤ x.lead_score)
          ∧ g.Sorted scoreDesc)
    ∧ (∀ (L : List SegLead) (R : List (String × VRule)) (v : String) (r : VRule),
        (v, r) ∈ R → L.filter (fun x => x.vertical == v) = [] →
        ∀ g : List SegLead, (v, g) ∉ apply_vertical_filters L R) := by
  constructor
  · intro L R v g h
    obtain ⟨r, hr, _, hg⟩ := mem_segment_spec h
    subst hg
    exact ⟨r, hr, retained_length L v r, retained_min_score, retained_sorted L v r⟩
  · intro L R v r _ hfil g hmem
    obtain ⟨r', _, hne, _⟩ := mem_segment_spec hmem
    rw [hfil] at hne
    cases hne

/-- Witness for C6 on a concrete lead set: one qualifying restaurant
lead is retained under the restaurants rule, and the grocery vertical
(no matching leads) is absent from the output. -/
theorem c6_segment_rules_witness :
    (∃ r : VRule, ("restaurants", r) ∈ VERTICAL_RULES
      ∧ [demoSegLead].length ≤ r.target_count
      ∧ (∀ x ∈ [demoSegLead], r.min_score ≤ x.lead_score)
      ∧ [demoSegLead].Sorted scoreDesc)
    ∧ ("grocery", ([] : List SegLead))
        ∉ apply_vertical_filters [demoSegLead] VERTICAL_RULES := by
  constructor
  · exact c6_segment_rules.1 [demoSegLead] VERTICAL_RULES "restaurants"
      [demoSegLead] (by decide)
  · exact c6_segment_rules.2 [demoSegLead] VERTICAL_RULES "grocery"
      { min_score := 60, target_count := 100, sla_days := 14
        priority_categories := ["grocery", "supermarket"] }
      (by decide) (by decide) []

/-- Each output group of the segmenter holds only leads of its own
vertical. -/
theorem segment_groups_vertical {L : List SegLead} {R : List (String × VRule)} :
    ∀ p ∈ apply_vertical_filters L R, ∀ x ∈ p.2, x.vertical = p.1 := by
  intro p hp x hx
  obtain ⟨v, g⟩ := p
  obtain ⟨r, _, _, hg⟩ := mem_segment_spec hp
  subst hg
  exact retained_vertical x hx

/-- The output's vertical keys form a sublist of the rules' keys. -/
theorem segment_keys_sublist (L : List SegLead) (R : List (String × VRule)) :
    ((apply_vertical_filters L R).map Prod.fst).Sublist (R.map Prod.fst) := by
  induction R with
  | nil => simp [apply_vertical_filters]
  | cons hd tl ih =>
    unfold apply_vertical_filters at ih ⊢
    rw [List.filterMap_cons]
    cases hpr : processVertical L hd with
    | none =>
      rw [List.map_cons]
      exact ih.cons hd.1
    | some p =>
      obtain ⟨v0, g0⟩ := p
      have h1 : hd.1 = v0 := (processVertical_eq_some hpr).1
      rw [List.map_cons, List.map_cons, h1]
      exact ih.cons₂ v0

/-- Unfolding `flattenGroups` over a cons cell. -/
theorem flattenGroups_cons (p : String × List SegLead)
    (tl : List (String × List SegLead)) :
    flattenGroups (p :: tl) = p.2 ++ flattenGroups tl := rfl

/-- Filtering the flattened groups for a vertical that labels none of
the groups yields nothing. -/
theorem filter_flattenGroups_nil {S : List (String × List SegLead)} {v : String}
    (hv : ∀ p ∈ S, ∀ x ∈ p.2, x.vertical = p.1)
    (hnot : v ∉ S.map Prod.fst) :
    (flattenGroups S).filter (fun x => x.vertical == v) = [] := by
  rw [List.filter_eq_nil_iff]
  intro x hx hbeq
  unfold flattenGroups at hx
  obtain ⟨l, hl, hxl⟩ := List.mem_flatten.mp hx
  obtain ⟨p, hp, rfl⟩ := List.mem_map.mp hl
  have h1 : p.1 = v := by
    rw [← hv p hp x hxl]
    simpa using hbeq
  exact hnot (List.mem_map.mpr ⟨p, hp, h1⟩)

/-- When the group labels are distinct, filtering the flattened groups
for a present vertical recovers exactly that vertical's group. -/
theorem filter_flattenGroups_group {v : String} {g : List SegLead} :
    ∀ {S : List (String × List SegLead)},
      (∀ p ∈ S, ∀ x ∈ p.2, x.vertical = p.1) →
      (S.map Prod.fst).Nodup → (v, g) ∈ S →
      (flattenGroups S).filter (fun x => x.vertical == v) = g := by
  intro S
  induction S with
  | nil => intro _ _ hmem; cases hmem
  | cons hd tl ih =>
    intro hv hnd hmem
    obtain ⟨v0, g0⟩ := hd
    rw [List.map_cons, List.nodup_cons] at hnd
    rw [flattenGroups_cons, List.filter_append]
    rcases List.mem_cons.mp hmem with heq | htl
    · injection heq with h1 h2
      subst h1
      subst h2
      have hself : g.filter (fun x => x.vertical == v) = g :=
        List.filter_eq_self.mpr (fun x hx => by
          simpa using hv (v, g) (List.mem_cons_self _ _) x hx)
      have hrest : (flattenGroups tl).filter (fun x => x.vertical == v) = [] :=
        filter_flattenGroups_nil
          (fun p hp => hv p (List.mem_cons_of_mem _ hp)) hnd.1
      rw [hself, hrest, List.append_nil]
    · have hvne : v0 ≠ v := by
        intro he
        subst he
        exact hnd.1 (List.mem_map.mpr ⟨(v0, g), htl, rfl⟩)
      have hhead : g0.filter (fun x => x.vertical == v) = [] := by
        rw [List.filter_eq_nil_iff]
        intro x hx hbeq
        apply hvne
        have hxv := hv (v0, g0) (List.mem_cons_self _ _) x hx
        dsimp only at hxv
        rw [← hxv]
        simpa using hbeq
      rw [hhead, List.nil_append]
      exact ih (fun p hp => hv p (List.mem_cons_of_mem _ hp)) hnd.2 htl

/-- If a vertical's partition of the original leads is empty, the
flattened segmenter output contains no lead of that vertical
either. -/
theorem segment_filter_flatten_nil {L : List SegLead}
    {R : List (String × VRule)} {v : String}
    (hLv : (L.filter (fun x => x.vertical == v)).isEmpty = true) :
    (flattenGroups (apply_vertical_filters L R)).filter
      (fun x => x.vertical == v) = [] := by
  rw [List.filter_eq_nil_iff]
  intro x hx hbeq
  unfold flattenGroups at hx
  obtain ⟨l, hl, hxl⟩ := List.mem_flatten.mp hx
  obtain ⟨p, hp, rfl⟩ := List.mem_map.mp hl
  obtain ⟨vp, gp⟩ := p
  have h1 : vp = v := by
    have hxv := segment_groups_vertical (vp, gp) hp x hxl
    dsimp only at hxv
    rw [← hxv]
    simpa using hbeq
  subst h1
  obtain ⟨r, _, hne, _⟩ := mem_segment_spec hp
  rw [hLv] at hne
  cases hne

/-- Pushing a filter inside `filterMap`. -/
theorem filterMap_option_filter {α β : Type} (f : α → Option β) (p : β → Bool) :
    ∀ l : List α,
      (l.filterMap f).filter p = l.filterMap (fun a => Option.filter p (f a)) := by
  intro l
  induction l with
  | nil => rfl
  | cons a t ih =>
    cases hfa : f a with
    | none => simp [List.filterMap_cons, hfa, Option.filter, ih]
    | some b =>
      cases hpb : p b <;>
        simp [List.filterMap_cons, hfa, Option.filter, hpb, ih]

/-- Re-running one segmenter iteration on the flattened output keeps a
non-empty group unchanged and drops an empty one. -/
theorem processVertical_idem {L : List SegLead} {R : List (String × VRule)}
    (hnd : (R.map Prod.fst).Nodup) {v : String} {r : VRule}
    (hvr : (v, r) ∈ R) :
    processVertical (flattenGroups (apply_vertical_filters L R)) (v, r)
      = Option.filter (fun p => !p.2.isEmpty) (processVertical L (v, r)) := by
  by_cases hm : (L.filter (fun x => x.vertical == v)).isEmpty
  · have h2 := segment_filter_flatten_nil (L := L) (R := R) (v := v) hm
    simp [processVertical, hm, h2, Option.filter]
  · have hpr : processVertical L (v, r) = some (v, retained L v r) := by
      simp [processVertical, hm]
    have hmem : (v, retained L v r) ∈ apply_vertical_filters L R := by
      unfold apply_vertical_filters
      exact List.mem_filterMap.mpr ⟨(v, r), hvr, hpr⟩
    have hfg : (flattenGroups (apply_vertical_filters L R)).filter
        (fun x => x.vertical == v) = retained L v r :=
      filter_flattenGroups_group segment_groups_vertical
        ((segment_keys_sublist L R).nodup hnd) hmem
    rw [hpr]
    by_cases hg : (retained L v r).isEmpty
    · simp [processVertical, hfg, hg, Option.filter]
    · have hfix : retained (flattenGroups (apply_vertical_filters L R)) v r
          = retained L v r := by
        unfold retained
        rw [hfg]
        rw [List.filter_eq_self.mpr
          (fun x hx => by simpa using retained_min_score x hx)]
        rw [List.Sorted.insertionSort_eq (retained_sorted L v r)]
        exact List.take_of_length_le (retained_length L v r)
      simp [processVertical, hfg, hg, Option.filter, hfix]

/-- C7 counterexample: one restaurant lead scoring 40 (below the
restaurants `min_score` of 50) yields the output
`[("restaurants", [])]` — the emptiness check runs before the score
filter, so the empty group is kept — but re-running the segmenter on
the flattened (empty) output omits the vertical entirely, so `segment`
is not idempotent as claimed. -/
theorem c7_not_idempotent_counterexample :
    apply_vertical_filters
        (flattenGroups (apply_vertical_filters [lowSegLead] VERTICAL_RULES))
        VERTICAL_RULES
      ≠ apply_vertical_filters [lowSegLead] VERTICAL_RULES := by
  decide

/-- In this embedding, whose sort is stable, re-running the segmenter
on its flattened output equals the first output with empty entries
removed.  This is a fact of the model only — the source's unstable
sort may permute a tie run when re-sorting — so it serves purely as a
stepping stone: only its tie-order-independent consequences are
asserted about the program. -/
theorem segment_reapply_eq_filter (L : List SegLead)
    (R : List (String × VRule)) (hnd : (R.map Prod.fst).Nodup) :
    apply_vertical_filters (flattenGroups (apply_vertical_filters L R)) R
      = (apply_vertical_filters L R).filter (fun p => !p.2.isEmpty) := by
  have h1 : (apply_vertical_filters L R).filter (fun p => !p.2.isEmpty)
      = R.filterMap
          (fun vr => Option.filter (fun p => !p.2.isEmpty) (processVertical L vr)) := by
    unfold apply_vertical_filters
    exact filterMap_option_filter _ _ R
  rw [h1]
  unfold apply_vertical_filters
  apply List.filterMap_congr
  intro vr hvr
  obtain ⟨v, r⟩ := vr
  exact processVertical_idem hnd hvr

/-- C7 amended: re-running the segmenter on its flattened output is
idempotent only up to empty entries and tie order.  Precisely: the
re-run output lists exactly the verticals of the first output whose
lead list is non-empty (an empty entry — a vertical whose partitioned
leads all fell below `min_score`, kept by the first run because the
emptiness check precedes the score filter — is dropped), and each
surviving vertical carries the same leads as before, as a permutation
of the first run's list that is again sorted descending by score;
list-level equality is not asserted because the source's sort is
unstable under equal scores.  The hypothesis asks the rule keys to be
distinct, as they are for any dict-shaped rule set. -/
theorem c7_reapply_up_to_empty_and_ties (L : List SegLead)
    (R : List (String × VRule)) (hnd : (R.map Prod.fst).Nodup) :
    ((apply_vertical_filters (flattenGroups (apply_vertical_filters L R)) R).map
        Prod.fst
      = ((apply_vertical_filters L R).filter (fun p => !p.2.isEmpty)).map
          Prod.fst)
    ∧ (∀ (v : String) (g' : List SegLead),
        (v, g')
            ∈ apply_vertical_filters (flattenGroups (apply_vertical_filters L R)) R →
        ∃ g : List SegLead, (v, g) ∈ apply_vertical_filters L R
          ∧ g'.Perm g ∧ g'.Sorted scoreDesc)
    ∧ (∀ (v : String) (g : List SegLead),
        (v, g) ∈ apply_vertical_filters L R → g ≠ [] →
        ∃ g' : List SegLead,
          (v, g')
              ∈ apply_vertical_filters (flattenGroups (apply_vertical_filters L R)) R
            ∧ g'.Perm g) := by
  have heq := segment_reapply_eq_filter L R hnd
  refine ⟨by rw [heq], ?_, ?_⟩
  · intro v g' h
    rw [heq] at h
    have hmem := List.mem_of_mem_filter h
    refine ⟨g', hmem, List.Perm.refl g', ?_⟩
    obtain ⟨r, _, _, hg⟩ := mem_segment_spec hmem
    subst hg
    exact retained_sorted L v r
  · intro v g h hne
    refine ⟨g, ?_, List.Perm.refl g⟩
    rw [heq]
    refine List.mem_filter.mpr ⟨h, ?_⟩
    simpa [List.isEmpty_iff] using hne

/-- Witness for the amended C7: on a one-lead set the re-run output
keys match the non-empty-filtered first run, and the restaurants group
survives as a sorted permutation of itself. -/
theorem c7_reapply_up_to_empty_and_ties_witness :
    ((apply_vertical_filters
          (flattenGroups (apply_vertical_filters [demoSegLead] VERTICAL_RULES))
          VERTICAL_RULES).map Prod.fst
      = ((apply_vertical_filters [demoSegLead] VERTICAL_RULES).filter
          (fun p => !p.2.isEmpty)).map Prod.fst)
    ∧ (∃ g : List SegLead,
        ("restaurants", g) ∈ apply_vertical_filters [demoSegLead] VERTICAL_RULES
          ∧ List.Perm [demoSegLead] g ∧ List.Sorted scoreDesc [demoSegLead]) := by
  constructor
  · exact (c7_reapply_up_to_empty_and_ties [demoSegLead] VERTICAL_RULES
      (by decide)).1
  · exact (c7_reapply_up_to_empty_and_ties [demoSegLead] VERTICAL_RULES
      (by decide)).2.1 "restaurants" [demoSegLead] (by decide)

end Leads
